import Mathlib

/-!
Shallow embedding of the account-authenticity audit engine of this
repository (`src/backend/ig_tools.py` and `src/backend/app.py`).

Modelling conventions: Python integers are `Int` (or `Nat` for sizes and
counts), Python floats are exact rationals `ℚ` except where the source
computes with `exp` (the Bayesian estimator, modelled over `ℝ`), Python
strings are `String`, dicts keyed by strings are functions `String → ℕ`,
and fallible operations return `Except`/`Option`.  The browser-driven
parts (navigation, selectors) are modelled by oracle functions supplying
the data each page interaction would yield; the pure record-processing
logic downstream of them is transliterated from the source.
-/

/-- Keep-first de-duplication threading an explicit list of already-seen
keys.  Models both `list(dict.fromkeys(usernames))` (ig_tools.py line 571,
key = identity) and the seen-set loop of `scrape_post_comments`
(ig_tools.py lines 297-307, key = lowercased `(username, text)`). -/
def dedupBy {α κ : Type} [DecidableEq κ] (key : α → κ) : List α → List κ → List α
  | [], _ => []
  | x :: xs, seen =>
    if key x ∈ seen then dedupBy key xs seen
    else x :: dedupBy key xs (key x :: seen)

/-- Python `str.lower()` (ASCII behaviour, which is all the source feeds it). -/
def strLower (s : String) : String :=
  String.mk (s.data.map Char.toLower)

/-- Python `str.strip()` on a character list: drop whitespace from both ends. -/
def pyStripChars (l : List Char) : List Char :=
  ((l.dropWhile Char.isWhitespace).reverse.dropWhile Char.isWhitespace).reverse

/-- Python `str.strip()`. -/
def pyStrip (s : String) : String :=
  String.mk (pyStripChars s.data)

/-- Drop everything up to and including the first occurrence of `"://"`;
`none` when the separator does not occur. -/
def dropSchemeSep : List Char → Option (List Char)
  | ':' :: '/' :: '/' :: rest => some rest
  | _ :: rest => dropSchemeSep rest
  | [] => none

/-- Path component of Python `urlparse` for the inputs `extract_username`
receives: for absolute URLs `scheme://netloc/path...` the path starts at the
first `/` after the netloc; a string without `"://"` (e.g. a bare
`@handle`) is parsed with the whole string as its path.  Query strings and
fragments are not modelled (the profile references this repository handles
carry none). -/
def urlPathChars (s : String) : List Char :=
  match dropSchemeSep s.data with
  | some rest => rest.dropWhile (fun c => c ≠ '/')
  | none => s.data

/-- Split a character list on a separator character (Python `str.split(sep)`:
empty pieces are kept). -/
def splitOnCharAux (c : Char) : List Char → List Char → List (List Char)
  | [], cur => [cur.reverse]
  | a :: rest, cur =>
    if a = c then cur.reverse :: splitOnCharAux c rest []
    else splitOnCharAux c rest (a :: cur)

/-- `[p for p in u.path.split("/") if p]` from ig_tools.py line 21:
the non-empty `/`-separated pieces of the parsed path. -/
def pathParts (s : String) : List String :=
  ((splitOnCharAux '/' (urlPathChars s) []).filter (fun l => l ≠ [])).map String.mk

/-- Reserved leading path segments rejected by `extract_username`
(ig_tools.py line 25). -/
def reservedSegments : List String :=
  ["p", "reel", "stories", "explore", "accounts"]

/-- `extract_username` (ig_tools.py lines 19-27): take the first non-empty
path segment, strip surrounding whitespace, and reject reserved segments.
`ValueError` is modelled as `Except.error` carrying the message. -/
def extract_username (profile_url : String) : Except String String :=
  match pathParts profile_url with
  | [] => Except.error "No username found in URL."
  | p :: _ =>
    let username := pyStrip p
    if strLower username ∈ reservedSegments then
      Except.error "That URL does not look like a profile URL."
    else Except.ok username


/-- Arithmetic mean of a rational list (`numpy.mean`; callers guard the
empty case exactly where the source does). -/
def meanQ (l : List ℚ) : ℚ :=
  l.sum / l.length

/-- Insert into a sorted rational list. -/
def insertSorted (x : ℚ) : List ℚ → List ℚ
  | [] => [x]
  | y :: ys => if x ≤ y then x :: y :: ys else y :: insertSorted x ys

/-- Ascending insertion sort (the sort underlying `numpy.median`). -/
def sortQ : List ℚ → List ℚ
  | [] => []
  | x :: xs => insertSorted x (sortQ xs)

/-- `numpy.median`: middle element of the sorted list, or the average of the
two middle elements for even length.  Callers guard the empty case. -/
def medianQ (l : List ℚ) : ℚ :=
  let s := sortQ l
  if l.length % 2 = 1 then s.getD (l.length / 2) 0
  else (s.getD (l.length / 2 - 1) 0 + s.getD (l.length / 2) 0) / 2

/-- Population variance (`numpy.std` squared, ddof = 0). -/
def pvarQ (l : List ℚ) : ℚ :=
  (l.map (fun x => (x - meanQ l) ^ 2)).sum / l.length

/-- Python `round(x, d)` as exact rational rounding.  (Python rounds binary
floats half-to-even; the claims below only need that rounding is monotone
and fixes integers, and every concrete value they evaluate rounds exactly.) -/
def roundTo (d : ℕ) (x : ℚ) : ℚ :=
  ((round (x * 10 ^ d) : ℤ) : ℚ) / 10 ^ d

/-- Characterization of `numpy.std(l)/numpy.mean(l)` as computed at
ig_tools.py lines 133-134: the coefficient of variation is the value `v`
with `v ≥ 0` and `v² = pvar/mean²` when the list is non-empty with positive
mean, and `0.0` otherwise.  The source value is an irrational square root in
general, so `compute_profile_metrics` below takes it as a parameter and the
theorems quantify over every value (or pin it with this predicate). -/
def isCV (l : List ℚ) (v : ℚ) : Prop :=
  if l ≠ [] ∧ 0 < meanQ l then 0 ≤ v ∧ v ^ 2 = pvarQ l / (meanQ l) ^ 2 else v = 0

/-- The stock-phrase set of `is_generic_comment` (ig_tools.py lines 101-104). -/
def generic_phrases : List String :=
  ["nice", "nice pic", "nice post", "cool", "wow", "amazing", "great", "love this",
   "so nice", "beautiful", "awesome", "great pic", "lovely", "perfect"]

/-- `is_generic_comment` (ig_tools.py lines 96-115).  `re.fullmatch(r"[\W_]+", t)`
holds exactly when `t` is non-empty and every character is non-alphanumeric. -/
def is_generic_comment (text : String) : Bool :=
  let t := strLower (pyStrip text)
  if t.data = [] ∨ t.data.length ≤ 2 then true
  else if t ∈ generic_phrases then true
  else if (t.data.countP Char.isAlpha) ≤ 3 ∧ t.data.length ≤ 12 then true
  else if t.data ≠ [] ∧ t.data.all (fun c => !c.isAlphanum) then true
  else false

/-- One scraped comment (`{"username": ..., "text": ...}`). -/
structure CommentRec where
  username : String
  text : String
deriving DecidableEq

/-- One post as consumed by the metrics engine. -/
structure PostRec where
  likes : ℤ
  comments_count : ℤ
  comments : List CommentRec
deriving DecidableEq

/-- The profile dict fields `compute_profile_metrics` reads. -/
structure ProfileIn where
  followers : ℤ
  posts : List PostRec
deriving DecidableEq

/-- The metrics dict returned by `compute_profile_metrics`
(ig_tools.py lines 189-202). -/
structure MetricsReport where
  avg_likes : ℚ
  median_likes : ℚ
  avg_comments : ℚ
  median_comments : ℚ
  er_avg : ℚ
  er_median : ℚ
  like_cv : ℚ
  comment_cv : ℚ
  generic_comments_pct : ℚ
  duplicate_comments_pct : ℚ
  repeat_commenters_pct : ℚ
  risk_score : ℚ
deriving DecidableEq

/-- `len(set(l))`: the number of distinct elements. -/
def uniqueCount (l : List String) : ℕ :=
  (dedupBy (fun x => x) l []).length

/-- The risk-score block of `compute_profile_metrics` (ig_tools.py lines
156-187), as a function of the local variables it reads: the sequential
`risk += ...` accumulation written as one sum, then clamped to [0,100]. -/
def riskScore (followers : ℤ) (er_avg generic_pct dup_pct repeat_pct : ℚ)
    (nLikes : ℕ) (like_cv : ℚ) (nComments : ℕ) (comment_cv : ℚ) : ℚ :=
  max 0 (min 100 (
    (if followers < 10000 then (if er_avg < 1/100 then (25 : ℚ) else 0)
     else if followers < 100000 then (if er_avg < 7/1000 then 25 else 0)
     else (if er_avg < 3/1000 then 25 else 0))
    + (if generic_pct > 40 then 20 else if generic_pct > 25 then 12 else 0)
    + (if dup_pct > 20 then 15 else if dup_pct > 10 then 8 else 0)
    + (if repeat_pct > 30 then 10 else if repeat_pct > 15 then 5 else 0)
    + (if 10 ≤ nLikes ∧ like_cv < 15/100 then 10 else 0)
    + (if 10 ≤ nComments ∧ comment_cv < 20/100 then 5 else 0)))

/-- `likes` array of `compute_profile_metrics` (ig_tools.py line 122). -/
def likesOf (p : ProfileIn) : List ℚ :=
  p.posts.map (fun q => (q.likes : ℚ))

/-- `comcnt` array of `compute_profile_metrics` (ig_tools.py line 123). -/
def comcntOf (p : ProfileIn) : List ℚ :=
  p.posts.map (fun q => (q.comments_count : ℚ))

/-- `avg_likes` (ig_tools.py line 125). -/
def avgLikes (p : ProfileIn) : ℚ :=
  if likesOf p ≠ [] then meanQ (likesOf p) else 0

/-- `med_likes` (ig_tools.py line 126). -/
def medLikes (p : ProfileIn) : ℚ :=
  if likesOf p ≠ [] then medianQ (likesOf p) else 0

/-- `avg_comments` (ig_tools.py line 127). -/
def avgComments (p : ProfileIn) : ℚ :=
  if comcntOf p ≠ [] then meanQ (comcntOf p) else 0

/-- `med_comments` (ig_tools.py line 128). -/
def medComments (p : ProfileIn) : ℚ :=
  if comcntOf p ≠ [] then medianQ (comcntOf p) else 0

/-- `er_avg` as a decimal ratio (ig_tools.py line 130). -/
def erAvg (p : ProfileIn) : ℚ :=
  if 0 < p.followers then (avgLikes p + avgComments p) / (p.followers : ℚ) else 0

/-- `er_med` as a decimal ratio (ig_tools.py line 131). -/
def erMed (p : ProfileIn) : ℚ :=
  if 0 < p.followers then (medLikes p + medComments p) / (p.followers : ℚ) else 0

/-- `all_comments` flattened across posts (ig_tools.py lines 136-138). -/
def allComments (p : ProfileIn) : List CommentRec :=
  (p.posts.map (fun q => q.comments)).flatten

/-- `generic_pct` (ig_tools.py lines 140-142). -/
def genericPct (p : ProfileIn) : ℚ :=
  if (allComments p).length ≠ 0 then
    (((allComments p).filter (fun c => is_generic_comment c.text)).length : ℚ)
      / (allComments p).length * 100
  else 0

/-- The `(1 - unique/total) * 100` share of repeated keys, used for both
`dup_pct` (ig_tools.py lines 145-148) and `repeat_commenters_pct`
(lines 151-154); `0.0` on an empty list. -/
def repeatShare (l : List String) : ℚ :=
  if l ≠ [] then (1 - (uniqueCount l : ℚ) / l.length) * 100 else 0

/-- `texts` (ig_tools.py line 144): stripped, lowercased texts of the
comments with non-empty text. -/
def commentTexts (p : ProfileIn) : List String :=
  ((allComments p).filter (fun c => c.text ≠ "")).map (fun c => strLower (pyStrip c.text))

/-- `commenters` (ig_tools.py line 150). -/
def commenterNames (p : ProfileIn) : List String :=
  ((allComments p).filter (fun c => c.username ≠ "")).map (fun c => strLower (pyStrip c.username))

/-- `dup_pct` (ig_tools.py lines 145-148). -/
def dupPct (p : ProfileIn) : ℚ :=
  repeatShare (commentTexts p)

/-- `repeat_commenters_pct` (ig_tools.py lines 151-154). -/
def repeatPct (p : ProfileIn) : ℚ :=
  repeatShare (commenterNames p)

/-- `compute_profile_metrics` (ig_tools.py lines 118-202): the locals above
assembled into the returned dict, with the `round(..., d)` calls of lines
189-202.  `like_cv` and `comment_cv` are the coefficient-of-variation floats
of lines 133-134, taken as parameters because their value is an irrational
square root in general (see `isCV`); every theorem below quantifies over
every value, or pins them with `isCV`. -/
def compute_profile_metrics (p : ProfileIn) (like_cv comment_cv : ℚ) : MetricsReport :=
  { avg_likes := roundTo 2 (avgLikes p)
    median_likes := roundTo 2 (medLikes p)
    avg_comments := roundTo 2 (avgComments p)
    median_comments := roundTo 2 (medComments p)
    er_avg := roundTo 3 (erAvg p * 100)
    er_median := roundTo 3 (erMed p * 100)
    like_cv := roundTo 3 like_cv
    comment_cv := roundTo 3 comment_cv
    generic_comments_pct := roundTo 2 (genericPct p)
    duplicate_comments_pct := roundTo 2 (dupPct p)
    repeat_commenters_pct := roundTo 2 (repeatPct p)
    risk_score := roundTo 1 (riskScore p.followers (erAvg p) (genericPct p) (dupPct p)
      (repeatPct p) (likesOf p).length like_cv (comcntOf p).length comment_cv) }


/-- Key used by the comment de-duplication pass
(`(c["username"].lower(), c["text"].lower())`, ig_tools.py line 301). -/
def commentKey (c : CommentRec) : String × String :=
  (strLower c.username, strLower c.text)

/-- The de-duplication pass of `scrape_post_comments`
(ig_tools.py lines 297-307): keep the first comment for each key. -/
def dedupComments (l : List CommentRec) : List CommentRec :=
  dedupBy commentKey l []

/-- Bool test: does `pat` start the list? -/
def startsWithList : List Char → List Char → Bool
  | [], _ => true
  | _ :: _, [] => false
  | a :: as, b :: bs => a == b && startsWithList as bs

/-- Bool test: does `pat` occur as a contiguous run? (Python `pat in s`.) -/
def hasSubList (pat : List Char) : List Char → Bool
  | [] => startsWithList pat []
  | l@(_ :: t) => startsWithList pat l || hasSubList pat t

/-- Python `pat in s` on strings. -/
def strContainsSub (s pat : String) : Bool :=
  hasSubList pat.data s.data

/-- The regex `^[a-z]{2,6}\d{4,}$` with `re.IGNORECASE` (ig_tools.py line
425): two to six ASCII letters followed by at least four digits, spanning the
whole string.  Because the character class excludes digits, a full match
forces the letter block to be the maximal leading letter run. -/
def bottyUsernamePattern (l : List Char) : Bool :=
  let letters := l.takeWhile (fun c => c.isAlpha)
  let rest := l.drop letters.length
  decide (2 ≤ letters.length) && decide (letters.length ≤ 6) &&
    decide (4 ≤ rest.length) && rest.all Char.isDigit

/-- `looks_botty_username` (ig_tools.py lines 419-427).  `int(len(u)*0.4)` is
modelled as `⌊2·len/5⌋`, which is its exact value at every username length
the float expression evaluates exactly for (all lengths the platform allows). -/
def looks_botty_username (u : String) : Bool :=
  if u.data = [] then true
  else
    let digits := u.data.countP Char.isDigit
    if max 5 (2 * u.data.length / 5) ≤ digits then true
    else if bottyUsernamePattern u.data then true
    else false

/-- The follower fields `classify_likely_fake` reads
(`f.get("posts"/"followers"/"following"/"has_bio"/"is_private"/"username")`). -/
structure FollowerStats where
  username : String
  followers : ℤ
  following : ℤ
  posts : ℤ
  is_private : Bool
  has_bio : Bool
deriving DecidableEq

/-- `classify_likely_fake` (ig_tools.py lines 430-464): build the ordered
reason list, score it by substring dispatch over the reason strings, subtract
one (floored at zero) for private accounts, and flag at score ≥ 4. -/
def classify_likely_fake (f : FollowerStats) : Bool × List String :=
  let reasons :=
    (if f.is_private = false ∧ f.posts = 0 then ["0 posts (public)"] else []) ++
    (if f.is_private = false ∧ f.has_bio = false then ["no bio (public)"] else []) ++
    (if 1500 ≤ f.following ∧ f.followers ≤ 50 then
      ["following very high, followers very low"] else []) ++
    (if 3000 ≤ f.following then ["following extremely high"] else []) ++
    (if looks_botty_username f.username then ["bot-like username pattern"] else [])
  let score : ℤ := reasons.foldl (fun s r =>
    if strContainsSub r "following very high" then s + 3
    else if strContainsSub r "0 posts" then s + 2
    else if strContainsSub r "bot-like username" then s + 2
    else s + 1) 0
  let score := if f.is_private then max 0 (score - 1) else score
  (decide (4 ≤ score), reasons)

/-- The Bot Classifier score as the spec words it (§4.7 / claim C4): a direct
weighted sum of the five triggers, minus one (floored at zero) when private.
Second definition kept deliberately spec-shaped, to be compared against
`classify_likely_fake`. -/
def specClassifierScore (f : FollowerStats) : ℤ :=
  let s : ℤ :=
    (if f.is_private = false ∧ f.posts = 0 then (2 : ℤ) else 0) +
    (if f.is_private = false ∧ f.has_bio = false then 1 else 0) +
    (if 1500 ≤ f.following ∧ f.followers ≤ 50 then 3 else 0) +
    (if 3000 ≤ f.following then 1 else 0) +
    (if looks_botty_username f.username then 2 else 0)
  if f.is_private then max 0 (s - 1) else s

/-- `re.match(r"^/([A-Za-z0-9._]+)/$", href)` from the follower-modal harvest
(ig_tools.py lines 563-567): a leading and trailing slash around a non-empty
run of username characters; returns the captured group. -/
def parseProfileHref (href : String) : Option String :=
  match href.data with
  | '/' :: rest =>
    let core := rest.dropLast
    if rest.getLast? = some '/' ∧ core ≠ [] ∧
        core.all (fun c => c.isAlphanum || c == '.' || c == '_') then
      some (String.mk core)
    else none
  | _ => none

/-- One `harvest()` pass (ig_tools.py lines 557-567) over the anchor hrefs the
dialog currently shows: parse each href and drop the target's own handle. -/
def harvestAnchors (target : String) (hrefs : List String) : List String :=
  (hrefs.filterMap parseProfileHref).filter (fun u => strLower u ≠ strLower target)

/-- `list(dict.fromkeys(usernames))` (ig_tools.py line 571). -/
def dedupStr (l : List String) : List String :=
  dedupBy (fun x => x) l []

/-- The scroll loop of `collect_follower_usernames` (ig_tools.py lines
569-575), with the page modelled by an oracle `anchors` giving the hrefs
visible at each iteration.  Returns the accumulated de-duplicated list and
the number of harvest iterations executed; the fuel argument starts at 90
(`for _ in range(90)`). -/
def scrollLoopGo (anchors : ℕ → List String) (target : String) (q : ℕ) :
    ℕ → ℕ → List String → List String × ℕ
  | 0, _, acc => (acc, 0)
  | fuel + 1, i, acc =>
    let acc2 := dedupStr (acc ++ harvestAnchors target (anchors i))
    if q ≤ acc2.length then (acc2, 1)
    else
      let r := scrollLoopGo anchors target q fuel (i + 1) acc2
      (r.1, r.2 + 1)

/-- The de-duplicated harvest accumulated before iteration `i` starts:
`accBefore 0 = []`, and each iteration appends its harvest and de-duplicates,
exactly as `usernames[:] = list(dict.fromkeys(usernames))` does. -/
def accBefore (anchors : ℕ → List String) (target : String) : ℕ → List String
  | 0 => []
  | j + 1 => dedupStr (accBefore anchors target j ++ harvestAnchors target (anchors j))

/-- `collect_follower_usernames` (ig_tools.py lines 467-577) without the
navigation preamble: run the scroll loop and truncate to the quota
(`usernames[:sample_size]`). -/
def collect_follower_usernames (anchors : ℕ → List String) (target : String) (q : ℕ) :
    List String :=
  ((scrollLoopGo anchors target q 90 0 []).1).take q

/-- Number of harvest/scroll iterations the sampler executes. -/
def scrollIterations (anchors : ℕ → List String) (target : String) (q : ℕ) : ℕ :=
  (scrollLoopGo anchors target q 90 0 []).2

/-- Successful `fetch_web_profile_info` + `parse_profile_from_webjson` data
for one follower handle (ig_tools.py lines 603-609). -/
structure ResolvedInfo where
  followers : ℤ
  following : ℤ
  posts : ℤ
  is_private : Bool
  has_bio : Bool
deriving DecidableEq

/-- The per-follower stats dict of `follower_audit` (ig_tools.py lines
611-633), with the appended `likely_fake`/`reasons` fields. -/
structure FollowerRecord where
  username : String
  url : String
  followers : ℤ
  following : ℤ
  posts : ℤ
  is_private : Bool
  has_bio : Bool
  likely_fake : Bool
  reasons : List String
deriving DecidableEq

/-- The stats dict built for one harvested handle: the resolved fields on
success, or the all-zero/false dict of the `except` branch (ig_tools.py
lines 620-629) when resolution fails. -/
def followerStats (resolve : String → Option ResolvedInfo) (u : String) : FollowerStats :=
  match resolve u with
  | some r => ⟨u, r.followers, r.following, r.posts, r.is_private, r.has_bio⟩
  | none => ⟨u, 0, 0, 0, false, false⟩

/-- One follower record: stats (possibly zeroed) run through the Bot
Classifier (ig_tools.py lines 631-633). -/
def followerRecord (resolve : String → Option ResolvedInfo) (u : String) : FollowerRecord :=
  let s := followerStats resolve u
  let c := classify_likely_fake s
  ⟨s.username, "https://www.instagram.com/" ++ u ++ "/", s.followers, s.following, s.posts,
    s.is_private, s.has_bio, c.1, c.2⟩

/-- `likely_fake_pct` (ig_tools.py line 642, rounded at line 655):
`np.mean(fake_flags) * 100` when the list is non-empty, else `0.0`. -/
def botLikePct (flags : List Bool) : ℚ :=
  roundTo 2 (if flags ≠ [] then ((flags.count true : ℚ) / flags.length) * 100 else 0)

/-- `reason_counts` (ig_tools.py lines 644-648): occurrence counts of reason
strings, accumulated only from records whose `likely_fake` flag is set.  The
dict is modelled as its lookup function; the descending-count display sort of
line 656 does not change any count and is not modelled. -/
def reasonCounts (records : List FollowerRecord) : String → ℕ :=
  records.foldl (fun counts f =>
    if f.likely_fake then
      f.reasons.foldl (fun cs r => fun x => if x = r then cs r + 1 else cs x) counts
    else counts) (fun _ => 0)

/-- The result dict of `follower_audit` (ig_tools.py lines 650-658). -/
structure AuditResult where
  target_username : String
  sample_size_requested : ℤ
  sample_size_collected : ℕ
  likely_bot_like_pct : ℚ
  reason_counts : String → ℕ
  followers_sample_preview : List FollowerRecord

/-- `follower_audit` (ig_tools.py lines 580-658) after username extraction:
clamp the requested size to [1,500] (line 582; the `delay_ms` clamp of line
583 only paces requests and carries no claim), sample handles, resolve and
classify each one, and aggregate.  Page navigation is the `anchors` oracle
and per-handle resolution the `resolve` oracle (`none` = the `except` path). -/
def follower_audit_core (anchors : ℕ → List String) (resolve : String → Option ResolvedInfo)
    (target : String) (sample_size : ℤ) : AuditResult :=
  let size := max 1 (min sample_size 500)
  let names := collect_follower_usernames anchors target size.toNat
  let records := names.map (followerRecord resolve)
  let flags := records.map (fun r => r.likely_fake)
  { target_username := target
    sample_size_requested := size
    sample_size_collected := records.length
    likely_bot_like_pct := botLikePct flags
    reason_counts := reasonCounts records
    followers_sample_preview := records.take 30 }

/-- `follower_audit` including the `extract_username` call of line 581. -/
def follower_audit (anchors : ℕ → List String) (resolve : String → Option ResolvedInfo)
    (profile_url : String) (sample_size : ℤ) : Except String AuditResult :=
  (extract_username profile_url).map (fun t => follower_audit_core anchors resolve t sample_size)

/-- The `sample_size` clamp of the `/ig/follower-audit` endpoint
(app.py line 265): `max(50, min(int(req.sample_size or 200), 500))`, where
`or 200` replaces both a missing and a zero value. -/
def igFollowerAuditSampleSize (s : Option ℤ) : ℤ :=
  max 50 (min (match s with | none => 200 | some v => if v = 0 then 200 else v) 500)

/-- The five inputs `authenticity_estimate` reads from the request dict
(app.py lines 78-82; `or 0` null-handling folded into the integer fields). -/
structure AnalyzeData where
  followers : ℤ
  following : ℤ
  posts : ℤ
  avg_likes : ℤ
  avg_comments : ℤ
deriving DecidableEq

/-- Engagement-rate kernel tiers (app.py lines 88-99).  Each tier also picks
a qualitative reason string, not needed by any claim and not modelled. -/
def erParams (er : ℚ) : ℚ × ℚ :=
  if er < 5/1000 then (35, 18)
  else if er < 2/100 then (60, 15)
  else if er < 6/100 then (75, 12)
  else (65, 20)

/-- Follower/following-ratio kernel tiers (app.py lines 103-112). -/
def ratioParams (r : ℚ) : ℚ × ℚ :=
  if r < 1/2 then (55, 18)
  else if r < 2 then (65, 14)
  else (70, 14)

/-- Post-count kernel tiers (app.py lines 116-124). -/
def postsParams (p : ℤ) : ℚ × ℚ :=
  if p < 10 then (55, 20)
  else if p < 50 then (65, 16)
  else (70, 14)

/-- The three `(μ, σ)` pairs chosen by `authenticity_estimate` after its
input clamps (app.py lines 78-126): followers/following floored to 1,
posts/likes/comments floored to 0, `er = (avg_likes + 3·avg_comments)/followers`,
`ratio = followers/following`. -/
def authMus (d : AnalyzeData) : (ℚ × ℚ) × (ℚ × ℚ) × (ℚ × ℚ) :=
  let followers := max d.followers 1
  let following := max d.following 1
  let posts := max d.posts 0
  let avg_likes := max d.avg_likes 0
  let avg_comments := max d.avg_comments 0
  let er : ℚ := ((avg_likes + 3 * avg_comments : ℤ) : ℚ) / ((followers : ℤ) : ℚ)
  (erParams er, ratioParams (((followers : ℤ) : ℚ) / ((following : ℤ) : ℚ)), postsParams posts)

/-- One likelihood kernel `exp(-0.5·((x-μ)/σ)²) + 1e-12`
(app.py lines 101, 114, 126). -/
noncomputable def gaussKernel (ms : ℚ × ℚ) (x : ℕ) : ℝ :=
  Real.exp (-(1/2) * (((x : ℝ) - (ms.1 : ℝ)) / (ms.2 : ℝ)) ^ 2) + 1 / 10 ^ 12

/-- The unnormalized posterior `L1 * L2 * L3` (app.py line 128). -/
noncomputable def authLikelihood (d : AnalyzeData) (x : ℕ) : ℝ :=
  gaussKernel (authMus d).1 x * gaussKernel (authMus d).2.1 x * gaussKernel (authMus d).2.2 x

/-- The normalized posterior over the grid 0..100 (app.py line 129). -/
noncomputable def authPosterior (d : AnalyzeData) (x : ℕ) : ℝ :=
  authLikelihood d x / ∑ y ∈ Finset.range 101, authLikelihood d y

/-- `EX = Σ x·p(x)` (app.py line 131). -/
noncomputable def authEX (d : AnalyzeData) : ℝ :=
  ∑ x ∈ Finset.range 101, (x : ℝ) * authPosterior d x

/-- `VarX = Σ (x-EX)²·p(x)` (app.py line 132). -/
noncomputable def authVar (d : AnalyzeData) : ℝ :=
  ∑ x ∈ Finset.range 101, ((x : ℝ) - authEX d) ^ 2 * authPosterior d x

/-- `fake_pct = max(0, min(100, 100 - EX))` (app.py line 134), before the
display rounding of line 145. -/
noncomputable def auth_fake_pct (d : AnalyzeData) : ℝ :=
  max 0 (min 100 (100 - authEX d))

/-- `real_pct = 100.0 - fake_pct` (app.py line 135). -/
noncomputable def auth_real_pct (d : AnalyzeData) : ℝ :=
  100 - auth_fake_pct d

/-- The discrete confidence label (app.py lines 137-142). -/
inductive Confidence where
  | High
  | Medium
  | Low
deriving DecidableEq

/-- `confidence` selection: variance < 120 → High, < 250 → Medium, else Low. -/
noncomputable def authConfidence (d : AnalyzeData) : Confidence :=
  if authVar d < 120 then Confidence.High
  else if authVar d < 250 then Confidence.Medium
  else Confidence.Low

theorem mem_dedupBy_not_seen {α κ : Type} [DecidableEq κ] (key : α → κ) :
    ∀ (l : List α) (seen : List κ) (x : α), x ∈ dedupBy key l seen → key x ∉ seen
  | [], _, x, h => by simp [dedupBy] at h
  | a :: as, seen, x, h => by
    by_cases hk : key a ∈ seen
    · rw [dedupBy, if_pos hk] at h
      exact mem_dedupBy_not_seen key as seen x h
    · rw [dedupBy, if_neg hk] at h
      rcases List.mem_cons.mp h with rfl | h2
      · exact hk
      · intro hs
        exact mem_dedupBy_not_seen key as (key a :: seen) x h2 (List.mem_cons_of_mem _ hs)

theorem dedupBy_pairwise_ne {α κ : Type} [DecidableEq κ] (key : α → κ) :
    ∀ (l : List α) (seen : List κ), (dedupBy key l seen).Pairwise (fun a b => key a ≠ key b)
  | [], _ => by simp [dedupBy]
  | a :: as, seen => by
    by_cases hk : key a ∈ seen
    · rw [dedupBy, if_pos hk]
      exact dedupBy_pairwise_ne key as seen
    · rw [dedupBy, if_neg hk]
      refine List.Pairwise.cons ?_ (dedupBy_pairwise_ne key as (key a :: seen))
      intro b hb he
      apply mem_dedupBy_not_seen key as (key a :: seen) b hb
      rw [← he]
      exact List.mem_cons_self _ _

theorem dedupBy_eq_self {α κ : Type} [DecidableEq κ] (key : α → κ) :
    ∀ (l : List α) (seen : List κ), (∀ x ∈ l, key x ∉ seen) →
      l.Pairwise (fun a b => key a ≠ key b) → dedupBy key l seen = l
  | [], _, _, _ => rfl
  | a :: as, seen, hseen, hpw => by
    have hk : key a ∉ seen := hseen a (List.mem_cons_self a as)
    rw [dedupBy, if_neg hk]
    congr 1
    apply dedupBy_eq_self key as (key a :: seen)
    · intro x hx hmem
      rcases List.mem_cons.mp hmem with he | hs
      · exact (List.pairwise_cons.mp hpw).1 x hx he.symm
      · exact hseen x (List.mem_cons_of_mem _ hx) hs
    · exact (List.pairwise_cons.mp hpw).2

theorem dedupBy_idem {α κ : Type} [DecidableEq κ] (key : α → κ) (l : List α) (seen : List κ) :
    dedupBy key (dedupBy key l seen) seen = dedupBy key l seen :=
  dedupBy_eq_self key _ seen (fun x hx => mem_dedupBy_not_seen key l seen x hx)
    (dedupBy_pairwise_ne key l seen)

theorem dedupBy_length_le {α κ : Type} [DecidableEq κ] (key : α → κ) :
    ∀ (l : List α) (seen : List κ), (dedupBy key l seen).length ≤ l.length
  | [], _ => le_refl _
  | a :: as, seen => by
    by_cases hk : key a ∈ seen
    · rw [dedupBy, if_pos hk]
      exact le_trans (dedupBy_length_le key as seen) (Nat.le_succ _)
    · rw [dedupBy, if_neg hk]
      simpa using dedupBy_length_le key as (key a :: seen)

theorem uniqueCount_le_length (l : List String) : uniqueCount l ≤ l.length :=
  dedupBy_length_le _ l []

theorem mem_insertSorted (x y : ℚ) :
    ∀ (l : List ℚ), y ∈ insertSorted x l → y = x ∨ y ∈ l
  | [] => by simp [insertSorted]
  | a :: as => by
    intro h
    rw [insertSorted] at h
    by_cases hxa : x ≤ a
    · rw [if_pos hxa] at h
      rcases List.mem_cons.mp h with rfl | h2
      · exact Or.inl rfl
      · exact Or.inr h2
    · rw [if_neg hxa] at h
      rcases List.mem_cons.mp h with rfl | h2
      · exact Or.inr (List.mem_cons_self _ _)
      · rcases mem_insertSorted x y as h2 with h3 | h3
        · exact Or.inl h3
        · exact Or.inr (List.mem_cons_of_mem _ h3)

theorem mem_sortQ (y : ℚ) : ∀ (l : List ℚ), y ∈ sortQ l → y ∈ l
  | [] => by simp [sortQ]
  | a :: as => by
    intro h
    rw [sortQ] at h
    rcases mem_insertSorted a y (sortQ as) h with rfl | h2
    · exact List.mem_cons_self _ _
    · exact List.mem_cons_of_mem _ (mem_sortQ y as h2)

theorem getD_nonneg : ∀ (l : List ℚ), (∀ x ∈ l, 0 ≤ x) → ∀ (i : ℕ), 0 ≤ l.getD i 0
  | [], _, _ => by simp
  | a :: _, h, 0 => by simpa using h a (List.mem_cons_self _ _)
  | _ :: as, h, i + 1 => by
    simpa using getD_nonneg as (fun x hx => h x (List.mem_cons_of_mem _ hx)) i

theorem meanQ_nonneg (l : List ℚ) (h : ∀ x ∈ l, 0 ≤ x) : 0 ≤ meanQ l :=
  div_nonneg (List.sum_nonneg h) (by positivity)

theorem medianQ_nonneg (l : List ℚ) (h : ∀ x ∈ l, 0 ≤ x) : 0 ≤ medianQ l := by
  have hs : ∀ x ∈ sortQ l, 0 ≤ x := fun x hx => h x (mem_sortQ x l hx)
  by_cases hodd : l.length % 2 = 1
  · simp only [medianQ, if_pos hodd]
    exact getD_nonneg _ hs _
  · simp only [medianQ, if_neg hodd]
    have h1 := getD_nonneg _ hs (l.length / 2 - 1)
    have h2 := getD_nonneg _ hs (l.length / 2)
    positivity

theorem roundTo_nonneg (d : ℕ) (x : ℚ) (h : 0 ≤ x) : 0 ≤ roundTo d x := by
  unfold roundTo
  apply div_nonneg _ (by positivity)
  have h1 : (0 : ℤ) ≤ round (x * 10 ^ d) := by
    rw [round_eq]
    apply Int.floor_nonneg.mpr
    have : (0 : ℚ) ≤ x * 10 ^ d := by positivity
    linarith
  exact_mod_cast h1

theorem roundTo_le (d : ℕ) (B : ℤ) (x : ℚ) (h : x ≤ B) : roundTo d x ≤ B := by
  unfold roundTo
  rw [div_le_iff₀ (by positivity)]
  have h1 : round (x * 10 ^ d) ≤ B * 10 ^ d := by
    rw [round_eq]
    have h2 : x * 10 ^ d + 1 / 2 ≤ (B * 10 ^ d : ℤ) + 1 / 2 := by
      push_cast
      have : x * 10 ^ d ≤ (B : ℚ) * 10 ^ d := by
        apply mul_le_mul_of_nonneg_right h (by positivity)
      linarith
    calc ⌊x * 10 ^ d + 1 / 2⌋ ≤ ⌊((B * 10 ^ d : ℤ) : ℚ) + 1 / 2⌋ := Int.floor_le_floor h2
      _ = B * 10 ^ d := by
        rw [add_comm, Int.floor_add_int]
        norm_num
  calc ((round (x * 10 ^ d) : ℤ) : ℚ) ≤ ((B * 10 ^ d : ℤ) : ℚ) := by exact_mod_cast h1
    _ = (B : ℚ) * 10 ^ d := by push_cast; ring

theorem repeatShare_nonneg (l : List String) : 0 ≤ repeatShare l := by
  unfold repeatShare
  by_cases hl : l ≠ []
  · rw [if_pos hl]
    have hlen : 0 < (l.length : ℚ) := by
      have : 0 < l.length := List.length_pos.mpr hl
      exact_mod_cast this
    have hle : (uniqueCount l : ℚ) / l.length ≤ 1 := by
      rw [div_le_one hlen]
      exact_mod_cast uniqueCount_le_length l
    nlinarith
  · rw [if_neg hl]

theorem repeatShare_le_100 (l : List String) : repeatShare l ≤ 100 := by
  unfold repeatShare
  by_cases hl : l ≠ []
  · rw [if_pos hl]
    have hnn : 0 ≤ (uniqueCount l : ℚ) / l.length := by positivity
    nlinarith
  · rw [if_neg hl]
    norm_num

theorem genericPct_nonneg (p : ProfileIn) : 0 ≤ genericPct p := by
  unfold genericPct
  by_cases h : (allComments p).length ≠ 0
  · rw [if_pos h]
    positivity
  · rw [if_neg h]

theorem genericPct_le_100 (p : ProfileIn) : genericPct p ≤ 100 := by
  unfold genericPct
  by_cases h : (allComments p).length ≠ 0
  · rw [if_pos h]
    have hlen : 0 < ((allComments p).length : ℚ) := by
      exact_mod_cast Nat.pos_of_ne_zero h
    have hle : (((allComments p).filter (fun c => is_generic_comment c.text)).length : ℚ)
        / (allComments p).length ≤ 1 := by
      rw [div_le_one hlen]
      exact_mod_cast List.length_filter_le _ _
    nlinarith
  · rw [if_neg h]
    norm_num

theorem riskScore_nonneg (followers : ℤ) (er_avg generic_pct dup_pct repeat_pct : ℚ)
    (nLikes : ℕ) (like_cv : ℚ) (nComments : ℕ) (comment_cv : ℚ) :
    0 ≤ riskScore followers er_avg generic_pct dup_pct repeat_pct
      nLikes like_cv nComments comment_cv :=
  le_max_left 0 _

theorem riskScore_le_100 (followers : ℤ) (er_avg generic_pct dup_pct repeat_pct : ℚ)
    (nLikes : ℕ) (like_cv : ℚ) (nComments : ℕ) (comment_cv : ℚ) :
    riskScore followers er_avg generic_pct dup_pct repeat_pct
      nLikes like_cv nComments comment_cv ≤ 100 :=
  max_le (by norm_num) (min_le_left _ _)

theorem botLikePct_nonneg (flags : List Bool) : 0 ≤ botLikePct flags := by
  apply roundTo_nonneg
  by_cases hf : flags ≠ []
  · rw [if_pos hf]
    positivity
  · rw [if_neg hf]

theorem botLikePct_le_100 (flags : List Bool) : botLikePct flags ≤ 100 := by
  apply roundTo_le 2 100
  by_cases hf : flags ≠ []
  · rw [if_pos hf]
    have hlen : 0 < (flags.length : ℚ) := by
      have : 0 < flags.length := List.length_pos.mpr hf
      exact_mod_cast this
    have hle : (flags.count true : ℚ) / flags.length ≤ 1 := by
      rw [div_le_one hlen]
      exact_mod_cast List.count_le_length true flags
    nlinarith
  · rw [if_neg hf]
    norm_num

theorem foldl_bump (rs : List String) (counts : String → ℕ) (x : String) :
    (rs.foldl (fun cs r => fun y => if y = r then cs r + 1 else cs y) counts) x
      = counts x + rs.count x := by
  induction rs generalizing counts with
  | nil => simp
  | cons r rs ih =>
    rw [List.foldl_cons, ih]
    by_cases hx : x = r
    · subst hx
      simp [List.count_cons]
      omega
    · simp [hx, List.count_cons]

theorem reasonCounts_aux (records : List FollowerRecord) (counts : String → ℕ) (r : String) :
    (records.foldl (fun counts f =>
      if f.likely_fake then
        f.reasons.foldl (fun cs rr => fun x => if x = rr then cs rr + 1 else cs x) counts
      else counts) counts) r
      = counts r
        + ((records.filter (fun f => f.likely_fake)).map (fun f => f.reasons.count r)).sum := by
  induction records generalizing counts with
  | nil => simp
  | cons f fs ih =>
    rw [List.foldl_cons]
    by_cases hf : f.likely_fake
    · rw [if_pos hf, ih, foldl_bump]
      simp [List.filter_cons, hf]
      omega
    · rw [if_neg hf, ih]
      simp [List.filter_cons, hf]

theorem reasonCounts_eq_sum (records : List FollowerRecord) (r : String) :
    reasonCounts records r
      = ((records.filter (fun f => f.likely_fake)).map (fun f => f.reasons.count r)).sum := by
  unfold reasonCounts
  rw [reasonCounts_aux]
  omega

theorem scrollLoopGo_spec (anchors : ℕ → List String) (target : String) (q : ℕ) :
    ∀ (fuel i : ℕ),
      (scrollLoopGo anchors target q fuel i (accBefore anchors target i)).2 ≤ fuel
      ∧ (0 < fuel →
          0 < (scrollLoopGo anchors target q fuel i (accBefore anchors target i)).2)
      ∧ (∀ k : ℕ, k + 1 < (scrollLoopGo anchors target q fuel i (accBefore anchors target i)).2 →
          (accBefore anchors target (i + k + 1)).length < q)
      ∧ ((scrollLoopGo anchors target q fuel i (accBefore anchors target i)).2 < fuel →
          q ≤ (accBefore anchors target
            (i + (scrollLoopGo anchors target q fuel i (accBefore anchors target i)).2)).length)
  | 0, i => by
    simp [scrollLoopGo]
  | fuel + 1, i => by
    have hstep : dedupStr (accBefore anchors target i ++ harvestAnchors target (anchors i))
        = accBefore anchors target (i + 1) := rfl
    by_cases hq : q ≤ (accBefore anchors target (i + 1)).length
    · have hgo : scrollLoopGo anchors target q (fuel + 1) i (accBefore anchors target i)
          = (accBefore anchors target (i + 1), 1) := by
        simp only [scrollLoopGo]
        rw [hstep, if_pos hq]
      refine ⟨?_, ?_, ?_, ?_⟩ <;> rw [hgo]
      · exact Nat.succ_le_succ (Nat.zero_le _)
      · intro _
        norm_num
      · intro k hk
        simp at hk
      · intro _
        simpa using hq
    · obtain ⟨ih1, ih2, ih3, ih4⟩ := scrollLoopGo_spec anchors target q fuel (i + 1)
      have hgo : scrollLoopGo anchors target q (fuel + 1) i (accBefore anchors target i)
          = ((scrollLoopGo anchors target q fuel (i + 1) (accBefore anchors target (i + 1))).1,
             (scrollLoopGo anchors target q fuel (i + 1)
               (accBefore anchors target (i + 1))).2 + 1) := by
        simp only [scrollLoopGo]
        rw [hstep, if_neg hq]
      refine ⟨?_, ?_, ?_, ?_⟩ <;> rw [hgo]
      · exact Nat.succ_le_succ ih1
      · intro _
        exact Nat.succ_pos _
      · intro k hk
        cases k with
        | zero => simpa using Nat.lt_of_not_le hq
        | succ k' =>
          have h3 := ih3 k' (by omega)
          have he : i + 1 + k' + 1 = i + (k' + 1) + 1 := by omega
          rwa [he] at h3
      · intro h
        have h4 := ih4 (by omega)
        have he : i + 1 + (scrollLoopGo anchors target q fuel (i + 1)
            (accBefore anchors target (i + 1))).2
            = i + ((scrollLoopGo anchors target q fuel (i + 1)
              (accBefore anchors target (i + 1))).2 + 1) := by omega
        rwa [he] at h4

theorem gaussKernel_pos (ms : ℚ × ℚ) (x : ℕ) : 0 < gaussKernel ms x := by
  unfold gaussKernel
  positivity

theorem authLikelihood_pos (d : AnalyzeData) (x : ℕ) : 0 < authLikelihood d x := by
  unfold authLikelihood
  have h1 := gaussKernel_pos (authMus d).1 x
  have h2 := gaussKernel_pos (authMus d).2.1 x
  have h3 := gaussKernel_pos (authMus d).2.2 x
  positivity

theorem authDenom_pos (d : AnalyzeData) :
    0 < ∑ y ∈ Finset.range 101, authLikelihood d y :=
  Finset.sum_pos (fun i _ => authLikelihood_pos d i)
    (Finset.nonempty_range_iff.mpr (by norm_num))

theorem authPosterior_nonneg (d : AnalyzeData) (x : ℕ) : 0 ≤ authPosterior d x :=
  div_nonneg (le_of_lt (authLikelihood_pos d x)) (le_of_lt (authDenom_pos d))

theorem authPosterior_sum (d : AnalyzeData) :
    ∑ x ∈ Finset.range 101, authPosterior d x = 1 := by
  unfold authPosterior
  rw [← Finset.sum_div]
  exact div_self (ne_of_gt (authDenom_pos d))

theorem authEX_nonneg (d : AnalyzeData) : 0 ≤ authEX d :=
  Finset.sum_nonneg (fun x _ => mul_nonneg (by positivity) (authPosterior_nonneg d x))

theorem authEX_le_100 (d : AnalyzeData) : authEX d ≤ 100 := by
  have h1 : authEX d ≤ ∑ x ∈ Finset.range 101, 100 * authPosterior d x := by
    apply Finset.sum_le_sum
    intro x hx
    apply mul_le_mul_of_nonneg_right _ (authPosterior_nonneg d x)
    have hx100 : x ≤ 100 := Nat.lt_succ_iff.mp (Finset.mem_range.mp hx)
    exact_mod_cast hx100
  calc authEX d ≤ _ := h1
    _ = 100 * ∑ x ∈ Finset.range 101, authPosterior d x := by rw [Finset.mul_sum]
    _ = 100 := by rw [authPosterior_sum]; norm_num

theorem roundTo_le_100 (d : ℕ) (x : ℚ) (h : x ≤ 100) : roundTo d x ≤ 100 := by
  have h1 := roundTo_le d 100 x (by exact_mod_cast h)
  exact_mod_cast h1

/-- Claim C2: for every input to the authenticity estimator (which floors
followers/following to 1 and posts/avg_likes/avg_comments to 0 internally),
the posterior mass over the 101-point grid 0..100 sums to 1 (exactly, in the
real-valued model), the expected authenticity lies in [0,100], `fake_pct`
equals `clamp(100 - expected_authenticity, 0, 100)`, `real_pct` equals
`100 - fake_pct`, and the confidence label is High when variance < 120,
Medium when variance < 250, and Low otherwise. -/
theorem authenticity_posterior_spec (d : AnalyzeData) :
    (∑ x ∈ Finset.range 101, authPosterior d x) = 1
    ∧ 0 ≤ authEX d ∧ authEX d ≤ 100
    ∧ auth_fake_pct d = max 0 (min 100 (100 - authEX d))
    ∧ auth_real_pct d = 100 - auth_fake_pct d
    ∧ authConfidence d = (if authVar d < 120 then Confidence.High
        else if authVar d < 250 then Confidence.Medium else Confidence.Low) :=
  ⟨authPosterior_sum d, authEX_nonneg d, authEX_le_100 d, rfl, rfl, rfl⟩

/-- Claim C5 counterexample: the code's reserved set is
`{"p", "reel", "stories", "explore", "accounts"}`, not one containing
`"post"`, so a `/post/...` URL is accepted with handle `"post"`; and a
leading `@` is not stripped, so `"@post"` is accepted verbatim instead of
being reduced to the reserved `"post"`.  Both contradict the claim that
derivation fails exactly on the reserved set including "post" after
`@`-stripping. -/
theorem extract_username_reserved_counterexample :
    extract_username "https://www.instagram.com/post/ABC/" = Except.ok "post"
    ∧ extract_username "@post" = Except.ok "@post" :=
  ⟨rfl, rfl⟩

/-- Claim C5 (amended): deriving a handle takes the first non-empty
`/`-separated segment of the URL path (after the scheme and netloc when
`"://"` is present); a leading `@` is kept, not stripped.  The derivation
fails exactly when there is no non-empty segment or when the
whitespace-stripped segment, lowercased, is one of `p`, `reel`, `stories`,
`explore`, `accounts`; for every other input the whitespace-stripped first
segment is returned (non-empty whenever the segment contains a
non-whitespace character). -/
theorem extract_username_characterization (s : String) :
    (pathParts s = [] → extract_username s = Except.error "No username found in URL.")
    ∧ ∀ p ps, pathParts s = p :: ps →
        extract_username s =
          (if strLower (pyStrip p) ∈ reservedSegments then
            Except.error "That URL does not look like a profile URL."
          else Except.ok (pyStrip p)) := by
  constructor
  · intro h
    unfold extract_username
    rw [h]
  · intro p ps h
    unfold extract_username
    rw [h]

/-- Claim C5 witness: a normal profile URL resolves to its handle. -/
theorem extract_username_characterization_witness :
    extract_username "https://www.instagram.com/alice/" = Except.ok "alice" := by
  have h := (extract_username_characterization "https://www.instagram.com/alice/").2
    "alice" [] rfl
  rw [h]
  rfl

/-- Claim C6: the collected sample size never exceeds the requested one, the
requested size recorded in the result is the caller input clamped into the
engine bound [1,500], and the HTTP layer first clamps an out-of-range
caller value such as 10000 down to 500. -/
theorem follower_audit_sample_clamp (anchors : ℕ → List String)
    (resolve : String → Option ResolvedInfo) (target : String) (s : ℤ) :
    ((follower_audit_core anchors resolve target s).sample_size_collected : ℤ)
      ≤ (follower_audit_core anchors resolve target s).sample_size_requested
    ∧ (follower_audit_core anchors resolve target s).sample_size_requested
        = max 1 (min s 500)
    ∧ igFollowerAuditSampleSize (some 10000) = 500 := by
  refine ⟨?_, rfl, by decide⟩
  have h1 : (follower_audit_core anchors resolve target s).sample_size_collected
      = (collect_follower_usernames anchors target (max 1 (min s 500)).toNat).length := by
    simp [follower_audit_core]
  have h2 : (collect_follower_usernames anchors target (max 1 (min s 500)).toNat).length
      ≤ (max 1 (min s 500)).toNat := by
    unfold collect_follower_usernames
    rw [List.length_take]
    exact min_le_left _ _
  have h3 : (0 : ℤ) ≤ max 1 (min s 500) := le_trans zero_le_one (le_max_left _ _)
  have h4 : ((max 1 (min s 500)).toNat : ℤ) = max 1 (min s 500) := Int.toNat_of_nonneg h3
  show ((follower_audit_core anchors resolve target s).sample_size_collected : ℤ)
      ≤ max 1 (min s 500)
  rw [h1, ← h4]
  exact_mod_cast h2

/-- Claim C8: the comment de-duplication pass keyed on
(lowercased handle, lowercased text) is idempotent: applying it to its own
output returns the same sequence. -/
theorem dedup_comments_idempotent (l : List CommentRec) :
    dedupComments (dedupComments l) = dedupComments l :=
  dedupBy_idem commentKey l []

/-- Claim C9: the follower-sampler scroll loop always terminates within 90
harvest/scroll iterations, runs at least one, every iteration that was
followed by another one had not yet reached the quota (so the loop stops as
soon as the de-duplicated harvest reaches the requested sample size), and an
early exit implies the quota was reached. -/
theorem scroll_loop_termination (anchors : ℕ → List String) (target : String) (q : ℕ) :
    scrollIterations anchors target q ≤ 90
    ∧ 0 < scrollIterations anchors target q
    ∧ (∀ j : ℕ, j + 1 < scrollIterations anchors target q →
        (accBefore anchors target (j + 1)).length < q)
    ∧ (scrollIterations anchors target q < 90 →
        q ≤ (accBefore anchors target (scrollIterations anchors target q)).length) := by
  obtain ⟨h1, h2, h3, h4⟩ := scrollLoopGo_spec anchors target q 90 0
  refine ⟨h1, h2 (by norm_num), ?_, ?_⟩
  · intro j hj
    simpa using h3 j hj
  · intro hlt
    simpa using h4 hlt

/-- Claim C9 witness: with a modal that never yields new anchors the loop
still runs all 90 iterations and never reaches the quota. -/
theorem scroll_loop_termination_witness :
    scrollIterations (fun _ => []) "t" 5 ≤ 90
    ∧ (accBefore (fun _ => []) "t" 1).length < 5 :=
  ⟨(scroll_loop_termination (fun _ => []) "t" 5).1,
    (scroll_loop_termination (fun _ => []) "t" 5).2.2.1 0 (by decide)⟩

/-- Claim C10: the reason-count mapping of a follower audit aggregates
reasons only from records whose `likely_fake` flag is set: the counts over
all records equal the counts over the likely-fake records alone, and a
reason carried only by non-flagged records has count 0 even when their
reasons sequences are non-empty. -/
theorem reason_counts_only_likely_fake (records : List FollowerRecord) (r : String) :
    reasonCounts records r = reasonCounts (records.filter (fun f => f.likely_fake)) r
    ∧ ((∀ f ∈ records, r ∈ f.reasons → f.likely_fake = false) →
        reasonCounts records r = 0) := by
  constructor
  · rw [reasonCounts_eq_sum, reasonCounts_eq_sum, List.filter_filter]
    simp
  · intro h
    rw [reasonCounts_eq_sum]
    apply List.sum_eq_zero
    intro x hx
    simp only [List.mem_map] at hx
    obtain ⟨f, hf, rfl⟩ := hx
    simp only [List.mem_filter] at hf
    obtain ⟨hfm, hfl⟩ := hf
    have hr : r ∉ f.reasons := fun hr => by simp [h f hfm hr] at hfl
    exact List.count_eq_zero.mpr hr

/-- Claim C10 witness: a record that is not likely-fake contributes nothing,
even with a non-empty reasons list. -/
theorem reason_counts_only_likely_fake_witness :
    reasonCounts [⟨"x", "https://www.instagram.com/x/", 0, 0, 0, false, false, false,
      ["no bio (public)"]⟩] "no bio (public)" = 0 := by
  apply (reason_counts_only_likely_fake _ _).2
  intro f hf _
  rw [List.mem_singleton] at hf
  subst hf
  rfl

/-- Claim C1 counterexample: the profile with 1 follower and a single post
with 200 likes yields a reported engagement-rate percentage of 20000, far
outside [0,100].  The two `isCV` conjuncts certify that the coefficient has
exact value 0 for both arrays of this profile (zero variance for the likes,
zero mean for the comment counts), so the instantiation `like_cv = comment_cv
= 0` is the value the source computes. -/
theorem metrics_er_pct_exceeds_100 :
    100 < (compute_profile_metrics ⟨1, [⟨200, 0, []⟩]⟩ 0 0).er_avg
    ∧ (compute_profile_metrics ⟨1, [⟨200, 0, []⟩]⟩ 0 0).er_avg = 20000
    ∧ isCV [(200 : ℚ)] 0 ∧ isCV [(0 : ℚ)] 0 := by
  have he : (compute_profile_metrics ⟨1, [⟨200, 0, []⟩]⟩ 0 0).er_avg = 20000 := by
    norm_num [compute_profile_metrics, erAvg, avgLikes, avgComments, likesOf, comcntOf,
      meanQ, roundTo]
  refine ⟨by rw [he]; norm_num, he, ?_, ?_⟩
  · norm_num [isCV, meanQ, pvarQ]
  · norm_num [isCV, meanQ]

/-- Claim C1 (amended): all percentage fields of `MetricsReport` and
`AuditResult` other than the engagement-rate percentages lie in [0,100] —
the generic/duplicate/repeat-commenter percentages, the risk score, and the
bot-like percentage; the engagement-rate percentages `er_avg`/`er_median`
are nonnegative for profiles with nonnegative like/comment counts but are
not bounded by 100 (see the counterexample). -/
theorem metrics_and_audit_pct_bounds (p : ProfileIn) (like_cv comment_cv : ℚ)
    (hpost : ∀ q ∈ p.posts, 0 ≤ q.likes ∧ 0 ≤ q.comments_count) :
    (0 ≤ (compute_profile_metrics p like_cv comment_cv).er_avg
      ∧ 0 ≤ (compute_profile_metrics p like_cv comment_cv).er_median)
    ∧ (0 ≤ (compute_profile_metrics p like_cv comment_cv).generic_comments_pct
      ∧ (compute_profile_metrics p like_cv comment_cv).generic_comments_pct ≤ 100)
    ∧ (0 ≤ (compute_profile_metrics p like_cv comment_cv).duplicate_comments_pct
      ∧ (compute_profile_metrics p like_cv comment_cv).duplicate_comments_pct ≤ 100)
    ∧ (0 ≤ (compute_profile_metrics p like_cv comment_cv).repeat_commenters_pct
      ∧ (compute_profile_metrics p like_cv comment_cv).repeat_commenters_pct ≤ 100)
    ∧ (0 ≤ (compute_profile_metrics p like_cv comment_cv).risk_score
      ∧ (compute_profile_metrics p like_cv comment_cv).risk_score ≤ 100)
    ∧ ∀ flags : List Bool, 0 ≤ botLikePct flags ∧ botLikePct flags ≤ 100 := by
  have hlikes : ∀ x ∈ likesOf p, 0 ≤ x := by
    intro x hx
    simp only [likesOf, List.mem_map] at hx
    obtain ⟨q, hq, rfl⟩ := hx
    exact_mod_cast (hpost q hq).1
  have hcom : ∀ x ∈ comcntOf p, 0 ≤ x := by
    intro x hx
    simp only [comcntOf, List.mem_map] at hx
    obtain ⟨q, hq, rfl⟩ := hx
    exact_mod_cast (hpost q hq).2
  have havgL : 0 ≤ avgLikes p := by
    unfold avgLikes
    split_ifs
    · exact meanQ_nonneg _ hlikes
    · exact le_refl 0
  have havgC : 0 ≤ avgComments p := by
    unfold avgComments
    split_ifs
    · exact meanQ_nonneg _ hcom
    · exact le_refl 0
  have hmedL : 0 ≤ medLikes p := by
    unfold medLikes
    split_ifs
    · exact medianQ_nonneg _ hlikes
    · exact le_refl 0
  have hmedC : 0 ≤ medComments p := by
    unfold medComments
    split_ifs
    · exact medianQ_nonneg _ hcom
    · exact le_refl 0
  have her : 0 ≤ erAvg p := by
    unfold erAvg
    split_ifs with hf
    · have hfq : (0 : ℚ) ≤ (p.followers : ℚ) := by exact_mod_cast le_of_lt hf
      exact div_nonneg (add_nonneg havgL havgC) hfq
    · exact le_refl 0
  have hem : 0 ≤ erMed p := by
    unfold erMed
    split_ifs with hf
    · have hfq : (0 : ℚ) ≤ (p.followers : ℚ) := by exact_mod_cast le_of_lt hf
      exact div_nonneg (add_nonneg hmedL hmedC) hfq
    · exact le_refl 0
  refine ⟨⟨?_, ?_⟩, ⟨?_, ?_⟩, ⟨?_, ?_⟩, ⟨?_, ?_⟩, ⟨?_, ?_⟩, ?_⟩
  · exact roundTo_nonneg 3 _ (mul_nonneg her (by norm_num))
  · exact roundTo_nonneg 3 _ (mul_nonneg hem (by norm_num))
  · exact roundTo_nonneg 2 _ (genericPct_nonneg p)
  · exact roundTo_le_100 2 _ (genericPct_le_100 p)
  · exact roundTo_nonneg 2 _ (repeatShare_nonneg _)
  · exact roundTo_le_100 2 _ (repeatShare_le_100 _)
  · exact roundTo_nonneg 2 _ (repeatShare_nonneg _)
  · exact roundTo_le_100 2 _ (repeatShare_le_100 _)
  · exact roundTo_nonneg 1 _ (riskScore_nonneg _ _ _ _ _ _ _ _ _)
  · exact roundTo_le_100 1 _ (riskScore_le_100 _ _ _ _ _ _ _ _ _)
  · intro flags
    exact ⟨botLikePct_nonneg flags, botLikePct_le_100 flags⟩

/-- Claim C1 witness: the bounds instantiated at a concrete profile and a
concrete flag list. -/
theorem metrics_and_audit_pct_bounds_witness :
    (0 ≤ (compute_profile_metrics ⟨0, []⟩ 0 0).er_avg
      ∧ 0 ≤ (compute_profile_metrics ⟨0, []⟩ 0 0).er_median)
    ∧ (0 ≤ (compute_profile_metrics ⟨0, []⟩ 0 0).generic_comments_pct
      ∧ (compute_profile_metrics ⟨0, []⟩ 0 0).generic_comments_pct ≤ 100)
    ∧ (0 ≤ (compute_profile_metrics ⟨0, []⟩ 0 0).duplicate_comments_pct
      ∧ (compute_profile_metrics ⟨0, []⟩ 0 0).duplicate_comments_pct ≤ 100)
    ∧ (0 ≤ (compute_profile_metrics ⟨0, []⟩ 0 0).repeat_commenters_pct
      ∧ (compute_profile_metrics ⟨0, []⟩ 0 0).repeat_commenters_pct ≤ 100)
    ∧ (0 ≤ (compute_profile_metrics ⟨0, []⟩ 0 0).risk_score
      ∧ (compute_profile_metrics ⟨0, []⟩ 0 0).risk_score ≤ 100)
    ∧ (0 ≤ botLikePct [true] ∧ botLikePct [true] ≤ 100) := by
  obtain ⟨h1, h2, h3, h4, h5, h6⟩ :=
    metrics_and_audit_pct_bounds ⟨0, []⟩ 0 0 (by simp)
  exact ⟨h1, h2, h3, h4, h5, h6 [true]⟩

theorem tier_threshold_eq (f : ℤ) (er : ℚ) :
    (if f < 10000 then (if er < 1/100 then (25 : ℚ) else 0)
     else if f < 100000 then (if er < 7/1000 then 25 else 0)
     else (if er < 3/1000 then 25 else 0))
    = (if er < (if f < 10000 then (1/100 : ℚ) else if f < 100000 then 7/1000 else 3/1000)
       then 25 else 0) := by
  split_ifs <;> rfl

/-- Claim C3: the risk score is the additive clamped-to-[0,100] sum of the
six components with the follower-count-tiered engagement threshold
(<10k → 1%, <100k → 0.7%, ≥100k → 0.3%, on the decimal `er_avg`); and at the
fixture followers = 5000, er_avg = 10/5000, generic = 60, duplicate = 30,
like_cv = 0.05 over 12 posts, with repeat_commenters_pct ≤ 15 and
comment_cv ≥ 0.20, the engagement (+25), generic (+20), duplicate (+15) and
like-consistency (+10) components all fire and the total is 70. -/
theorem risk_score_components_spec (rp cc : ℚ) (h1 : rp ≤ 15) (h2 : 20/100 ≤ cc) :
    riskScore 5000 (1/500) 60 30 rp 12 (1/20) 12 cc = 70
    ∧ ∀ (f : ℤ) (er g dp r : ℚ) (nl : ℕ) (lv : ℚ) (nc : ℕ) (cv : ℚ),
        riskScore f er g dp r nl lv nc cv =
          max 0 (min 100
            ((if er < (if f < 10000 then (1/100 : ℚ)
                  else if f < 100000 then 7/1000 else 3/1000) then 25 else 0)
              + (if g > 40 then 20 else if g > 25 then 12 else 0)
              + (if dp > 20 then 15 else if dp > 10 then 8 else 0)
              + (if r > 30 then 10 else if r > 15 then 5 else 0)
              + (if 10 ≤ nl ∧ lv < 15/100 then 10 else 0)
              + (if 10 ≤ nc ∧ cv < 20/100 then 5 else 0))) := by
  constructor
  · have hr30 : ¬((30 : ℚ) < rp) := by linarith
    have hr15 : ¬((15 : ℚ) < rp) := by linarith
    have hcc : ¬(cc < 20/100) := not_lt.mpr h2
    have hcc5 : ¬(cc < 1/5) := fun h => hcc (by linarith)
    unfold riskScore
    norm_num [hr30, hr15, hcc, hcc5]
  · intro f er g dp r nl lv nc cv
    unfold riskScore
    rw [tier_threshold_eq]

/-- Claim C3 witness: the fixture hypotheses discharged at
repeat_commenters_pct = 0 and comment_cv = 1. -/
theorem risk_score_components_spec_witness :
    riskScore 5000 (1/500) 60 30 0 12 (1/20) 12 1 = 70 :=
  (risk_score_components_spec 0 1 (by norm_num) (by norm_num)).1

/-- Claim C4: the classifier flag equals the spec-shaped weighted score
reaching 4 (weights: public with 0 posts → 2, public with no bio → 1,
following ≥ 1500 with followers ≤ 50 → 3, following ≥ 3000 → 1, bot-like
username → 2; minus 1 floored at 0 when private); and the fixture
{following: 4000, followers: 10, posts: 0, has_bio: false, is_private:
false, username: "abc1234"} triggers all five reasons and is flagged. -/
theorem classify_likely_fake_spec :
    (∀ fs : FollowerStats, (classify_likely_fake fs).1 = decide (4 ≤ specClassifierScore fs))
    ∧ classify_likely_fake ⟨"abc1234", 10, 4000, 0, false, false⟩
        = (true, ["0 posts (public)", "no bio (public)",
            "following very high, followers very low",
            "following extremely high", "bot-like username pattern"]) := by
  refine ⟨?_, by decide⟩
  intro fs
  simp only [classify_likely_fake, specClassifierScore]
  split_ifs <;> decide

/-- Claim C7: a resolution failure for one harvested handle does not change
sample-size accounting (the collected size is the same whatever the resolver
does, failures included), and the failed handle is recorded as a
FollowerRecord with all-zero/false profile fields that is still run through
the Bot Classifier. -/
theorem follower_audit_item_failure_spec (anchors : ℕ → List String)
    (resolve resolveOther : String → Option ResolvedInfo) (target : String) (s : ℤ) :
    (follower_audit_core anchors resolve target s).sample_size_collected
      = (follower_audit_core anchors resolveOther target s).sample_size_collected
    ∧ ∀ u : String, resolve u = none →
        followerRecord resolve u =
          ⟨u, "https://www.instagram.com/" ++ u ++ "/", 0, 0, 0, false, false,
            (classify_likely_fake ⟨u, 0, 0, 0, false, false⟩).1,
            (classify_likely_fake ⟨u, 0, 0, 0, false, false⟩).2⟩ := by
  constructor
  · simp [follower_audit_core]
  · intro u hu
    unfold followerRecord followerStats
    rw [hu]

/-- Claim C7 witness: a resolver that always fails still produces the
zeroed-but-classified record. -/
theorem follower_audit_item_failure_witness :
    followerRecord (fun _ => none) "bob" =
      ⟨"bob", "https://www.instagram.com/" ++ "bob" ++ "/", 0, 0, 0, false, false,
        (classify_likely_fake ⟨"bob", 0, 0, 0, false, false⟩).1,
        (classify_likely_fake ⟨"bob", 0, 0, 0, false, false⟩).2⟩ :=
  (follower_audit_item_failure_spec (fun _ => []) (fun _ => none) (fun _ => none)
    "t" 5).2 "bob" rfl

/-- Sanity checks of the generic-comment classifier embedding against the
scenario fixtures of spec section 8: a stock phrase is generic, a normal
sentence is not, and a reserved path segment is rejected. -/
theorem generic_comment_fixtures :
    is_generic_comment "nice" = true
    ∧ is_generic_comment "wow amazing sunset today" = false
    ∧ extract_username "https://www.instagram.com/p/ABC/"
        = Except.error "That URL does not look like a profile URL." := by
  refine ⟨by decide, by decide, rfl⟩
